import Mathlib

/-!
Shallow embedding of the input/request orchestration layer of `src/App.tsx`
(the LV Health assistant-doctor single-page application).

The `App` component holds its state in a family of `useState` hooks
(lines 11-44 of `App.tsx`); we collect them into one record `AppState`.
Each event handler of the component becomes a pure state-transformer.
External collaborators (the analysis service, the report generator, the
camera device, file/clipboard decoding) are modelled by passing their
outcome as an explicit argument to the operation that awaits them.

Opaque payloads: an `AnalysisResult` is opaque to this layer (only stored
and compared for presence/identity), modelled as `Nat`; an image payload is
the data-URL string the code stores (`selectedImage : string | null`); a
`MediaStream` handle is opaque, modelled as `Nat`.
-/

namespace LVHealth

/-- ViewMode (from `types.ts`, as used in `App.tsx`): the two mutually
exclusive workflows. -/
inductive ViewMode
  | diagnosis
  | medication
deriving DecidableEq, Repr

/-- Analysis results are opaque to the orchestration layer: they are stored,
rendered elsewhere, and only their identity matters here. -/
abbrev AnalysisResult := Nat

/-- An image payload is the decoded data-URL string stored in
`selectedImage`. -/
abbrev ImagePayload := String

/-- Opaque `MediaStream` device handle. -/
abbrev StreamHandle := Nat

/-- Per-workflow asynchronous state, the shape of both `DiagnosisState` and
`MedicationState` (`App.tsx` lines 19-30): `{ results, loading, error }`. -/
structure WorkflowSt where
  results : Option AnalysisResult
  loading : Bool
  error : Option String
deriving DecidableEq, Repr

/-- Derived workflow status, discriminating the `{results, loading, error}`
fields the way the spec and the rendering code do: loading wins, then
error, then a present result means success, else idle. -/
inductive WStatus
  | idle
  | loading
  | success
  | error
deriving DecidableEq, Repr

def WorkflowSt.statusOf (w : WorkflowSt) : WStatus :=
  if w.loading then WStatus.loading
  else
    match w.error with
    | some _ => WStatus.error
    | none =>
      match w.results with
      | some _ => WStatus.success
      | none => WStatus.idle

/-- The complete mutable state of the `App` component: one field per
`useState` hook (`App.tsx` lines 11-44), in source order. -/
structure AppState where
  view : ViewMode
  input : String
  selectedImage : Option ImagePayload
  isGenerating : Bool
  diagnosisState : WorkflowSt
  medicationState : WorkflowSt
  showReportModal : Bool
  reportHtml : String
  generatingReport : Bool
  showContactModal : Bool
  copied : Bool
  showCamera : Bool
  stream : Option StreamHandle
deriving DecidableEq, Repr

/-- Initial state: every hook's initializer (`App.tsx` lines 11-44). -/
def initialState : AppState :=
  { view := ViewMode.diagnosis
    input := ""
    selectedImage := none
    isGenerating := false
    diagnosisState := ⟨none, false, none⟩
    medicationState := ⟨none, false, none⟩
    showReportModal := false
    reportHtml := ""
    generatingReport := false
    showContactModal := false
    copied := false
    showCamera := false
    stream := none }

/-- `isLoading` (`App.tsx` line 274): either workflow has a request in
flight. -/
def isLoading (s : AppState) : Bool :=
  s.diagnosisState.loading || s.medicationState.loading

/-- Drop leading whitespace characters. -/
def dropWhite : List Char → List Char
  | [] => []
  | c :: cs => if c.isWhitespace then dropWhite cs else c :: cs

/-- JavaScript `String.prototype.trim`: remove leading and trailing
whitespace. -/
def jsTrim (s : String) : String :=
  ⟨(dropWhite (dropWhite s.data).reverse).reverse⟩

/-- The draft is empty: `!input.trim() && !selectedImage` (lines 111, 141,
466). -/
def draftEmpty (s : AppState) : Bool :=
  decide (jsTrim s.input = "") && s.selectedImage.isNone

/-- Textarea edit (line 369, `onChange`); the textarea carries
`disabled={isLoading}` (line 376), so the event cannot fire while a request
is in flight. -/
def setInputEvent (t : String) (s : AppState) : AppState :=
  if isLoading s then s else { s with input := t }

/-- File-picker upload (`handleImageUpload`, lines 188-200): the decoded
data URL replaces any existing image. The upload button carries
`disabled={isLoading}` (line 400). -/
def uploadEvent (p : ImagePayload) (s : AppState) : AppState :=
  if isLoading s then s else { s with selectedImage := some p }

/-- The preview's remove button (line 355): `setSelectedImage(null)`. -/
def clearImageEvent (s : AppState) : AppState :=
  { s with selectedImage := none }

/-- One clipboard item: its MIME type string and the file it yields, if
any (`DataTransferItem.getAsFile()` may return null; the code checks
`if (blob)` on line 208). The payload is the decoded data URL. -/
structure ClipItem where
  itemType : String
  itemFile : Option ImagePayload
deriving DecidableEq, Repr

/-- Whether the first list starts the second. -/
def charsLeadMatch : List Char → List Char → Bool
  | [], _ => true
  | _ :: _, [] => false
  | a :: as, b :: bs => a == b && charsLeadMatch as bs

/-- Whether the first list occurs inside the second (JavaScript
`indexOf(...) !== -1`). -/
def charsHaveSub (needle : List Char) : List Char → Bool
  | [] => charsLeadMatch needle []
  | c :: cs => charsLeadMatch needle (c :: cs) || charsHaveSub needle cs

/-- `items[i].type.indexOf('image') !== -1` (line 205): the type string
contains `"image"` somewhere. -/
def typeHasImage (t : String) : Bool :=
  charsHaveSub "image".data t.data

/-- Result of a paste: the resulting `selectedImage` slot and whether
`e.preventDefault()` was called. -/
structure PasteOutcome where
  image : Option ImagePayload
  prevented : Bool
deriving DecidableEq, Repr

/-- `handlePaste` (lines 202-218): scan items in order; at the first item
whose type contains `"image"` call `preventDefault`, and store that item's
file (when `getAsFile()` yields one) as the image, then return; otherwise
fall through leaving everything alone. -/
def handlePaste (items : List ClipItem) (prev : Option ImagePayload) :
    PasteOutcome :=
  match items with
  | [] => ⟨prev, false⟩
  | it :: rest =>
    if typeHasImage it.itemType then
      ⟨match it.itemFile with
        | some f => some f
        | none => prev, true⟩
    else handlePaste rest prev

/-- Paste event on the textarea (line 370); disabled while loading
(line 376). -/
def pasteEvent (items : List ClipItem) (s : AppState) : AppState :=
  if isLoading s then s
  else { s with selectedImage := (handlePaste items s.selectedImage).image }

/-- `handleClear` (lines 180-186): clear the draft, reset both workflow
states, clear the cached report HTML. -/
def handleClear (s : AppState) : AppState :=
  { s with
    input := ""
    selectedImage := none
    diagnosisState := ⟨none, false, none⟩
    medicationState := ⟨none, false, none⟩
    reportHtml := "" }

/-- The Reset button (line 456) calls `handleClear`; it carries
`disabled={isLoading}` (line 458). -/
def clearEvent (s : AppState) : AppState :=
  if isLoading s then s else handleClear s

/-- `handleViewChange` (lines 63-66): `setView(newView); handleClear()`,
with no comparison against the current view. -/
def handleViewChange (v : ViewMode) (s : AppState) : AppState :=
  handleClear { s with view := v }

/-- Camera start (`startCamera`, lines 69-77), folded with its only entry
point: the Capture button rendered only in the medication view (line 408)
with `disabled={isLoading}` (line 414). `o = some m` models
`getUserMedia` resolving with a stream handle; `o = none` models the
rejection branch, which only alerts and changes no state. -/
def startCameraEvent (o : Option StreamHandle) (s : AppState) : AppState :=
  if s.view = ViewMode.medication ∧ isLoading s = false then
    match o with
    | some m => { s with stream := some m, showCamera := true }
    | none => s
  else s

/-- `stopCamera` (lines 79-85): stop all tracks of the stream (releasing
the device), drop the handle, hide the viewfinder. -/
def stopCamera (s : AppState) : AppState :=
  { s with stream := none, showCamera := false }

/-- `captureImage` (lines 93-106), reachable only from the viewfinder
button rendered when `showCamera` (line 881). `ctxOk` folds the
`videoRef.current` and `canvas.getContext('2d')` null-checks; `u` is the
captured frame's data URL. On success the image is stored and
`stopCamera()` runs; otherwise nothing happens. -/
def captureImageEvent (ctxOk : Bool) (u : ImagePayload) (s : AppState) :
    AppState :=
  if s.showCamera && ctxOk then stopCamera { s with selectedImage := some u }
  else s

/-- Outcome of an analysis-service call: `ok` carries the resolved result;
`fail` carries `err.message`, which may be absent or empty. -/
inductive SvcOutcome
  | ok (data : AnalysisResult)
  | fail (msg : Option String)
deriving DecidableEq, Repr

/-- JavaScript `err.message || dflt`: an absent or empty message falls back
to the generic one (lines 133, 162). -/
def orElseMsg (m : Option String) (dflt : String) : String :=
  match m with
  | some t => if t = "" then dflt else t
  | none => dflt

/-- Result of the synchronous part of a submit handler: the state after
it, whether the analysis service was invoked, and the prompt sent to it
(meaningful only when `invoked`). -/
structure SubmitStep where
  state : AppState
  invoked : Bool
  prompt : String
deriving DecidableEq, Repr

/-- `handleAnalyzeDiagnosis` up to its `await` (lines 109-118): guard on
an empty draft, then spread the previous diagnosis state with
`loading: true, error: null` (retaining `results`), clear `reportHtml`,
and call `analyzePatientSymptoms` with the trimmed text, or the fallback
instruction when the text is empty. -/
def handleAnalyzeDiagnosisStart (s : AppState) : SubmitStep :=
  if draftEmpty s then ⟨s, false, ""⟩
  else
    ⟨{ s with
        diagnosisState :=
          { s.diagnosisState with loading := true, error := none }
        reportHtml := "" },
      true,
      if jsTrim s.input = "" then
        "Please analyze the symptoms present in the attached image."
      else jsTrim s.input⟩

/-- `handleAnalyzeMedication` up to its `await` (lines 139-147): same
guard and loading transition for the medication instance; it does not
touch `reportHtml`. -/
def handleAnalyzeMedicationStart (s : AppState) : SubmitStep :=
  if draftEmpty s then ⟨s, false, ""⟩
  else
    ⟨{ s with
        medicationState :=
          { s.medicationState with loading := true, error := none } },
      true,
      if jsTrim s.input = "" then "Analyze this medication image."
      else jsTrim s.input⟩

/-- The submit button's `disabled` attribute (line 466):
`isLoading || (!input.trim() && !selectedImage)`. -/
def submitButtonDisabled (s : AppState) : Bool :=
  isLoading s || draftEmpty s

/-- The form-submission event (line 340): it can only fire through the
submit button, which is inert when `submitButtonDisabled`; when it fires
it runs the handler of the active view. -/
def submitForm (s : AppState) : SubmitStep :=
  if submitButtonDisabled s then ⟨s, false, ""⟩
  else
    match s.view with
    | ViewMode.diagnosis => handleAnalyzeDiagnosisStart s
    | ViewMode.medication => handleAnalyzeMedicationStart s

/-- Resolution of the diagnosis service call (lines 118-135): success
stores the result with `loading: false, error: null`; failure stores
`results: null` and the message (or the generic fallback). -/
def resolveDiagnosis (o : SvcOutcome) (s : AppState) : AppState :=
  match o with
  | SvcOutcome.ok d => { s with diagnosisState := ⟨some d, false, none⟩ }
  | SvcOutcome.fail m =>
    { s with
      diagnosisState :=
        ⟨none, false,
          some (orElseMsg m "An error occurred during diagnosis.")⟩ }

/-- Resolution of the medication service call (lines 147-164). -/
def resolveMedication (o : SvcOutcome) (s : AppState) : AppState :=
  match o with
  | SvcOutcome.ok d => { s with medicationState := ⟨some d, false, none⟩ }
  | SvcOutcome.fail m =>
    { s with
      medicationState :=
        ⟨none, false,
          some (orElseMsg m "An error occurred during medication analysis.")⟩ }

/-- What `generateClinicalReport` leaves in `reportHtml`
(lines 229-232): the returned HTML on success, the fixed fallback
fragment when the call throws. -/
def reportOutcomeHtml (o : Option String) : String :=
  match o with
  | some h => h
  | none => "<p>Error loading report.</p>"

/-- Result of one `handleViewReport` call: the state after it completes
and whether `generateClinicalReport` was invoked. -/
structure ReportStep where
  state : AppState
  generateInvoked : Bool
deriving DecidableEq, Repr

/-- `handleViewReport` (lines 220-237): bail out without results; open
the modal; if `reportHtml` is empty, generate (storing the outcome, with
`generatingReport` back to false), else reuse the cached HTML. -/
def handleViewReport (s : AppState) (o : Option String) : ReportStep :=
  if s.diagnosisState.results.isNone then ⟨s, false⟩
  else if s.reportHtml = "" then
    ⟨{ s with
        showReportModal := true
        reportHtml := reportOutcomeHtml o
        generatingReport := false },
      true⟩
  else ⟨{ s with showReportModal := true }, false⟩

/-- Report modal close buttons (lines 782, 801). -/
def closeReportModal (s : AppState) : AppState :=
  { s with showReportModal := false }

/-- Header contact button (line 285): `setShowContactModal(true)`. -/
def openContactModal (s : AppState) : AppState :=
  { s with showContactModal := true }

/-- Contact modal close button (line 828). -/
def closeContactModal (s : AppState) : AppState :=
  { s with showContactModal := false }

/-- `handleCopyEmail` (lines 268-272): sets the `copied` flag. -/
def copyEmailStart (s : AppState) : AppState :=
  { s with copied := true }

/-- The `setTimeout` of `handleCopyEmail` firing: clears `copied`. -/
def copyEmailEnd (s : AppState) : AppState :=
  { s with copied := false }

/-- `handleGenerateSample` up to its `await` (lines 167-170): the button
is `disabled={isLoading || isGenerating}` (lines 429, 445) and the handler
itself returns early when `diagnosisState.loading || isGenerating`. -/
def generateSampleStart (s : AppState) : AppState :=
  if isLoading s || s.isGenerating then s
  else { s with isGenerating := true }

/-- Resolution of `generatePatientSample` (lines 170-177): on success the
sample becomes the input text; on failure only a console message; either
way `isGenerating` ends false. -/
def generateSampleEnd (o : Option String) (s : AppState) : AppState :=
  { s with
    input := match o with | some t => t | none => s.input
    isGenerating := false }

/-- Number of overlay surfaces currently visible: the report modal
(line 769), the contact modal (line 821) and the camera viewfinder
(line 881) are each shown exactly when their flag is set. -/
def overlaysVisible (s : AppState) : Nat :=
  (if s.showReportModal then 1 else 0) +
    (if s.showContactModal then 1 else 0) +
    (if s.showCamera then 1 else 0)

/-- One user- or completion-driven transition of the application: every
event handler of `App.tsx`, with service/device completions only firing
when the corresponding request is actually outstanding. -/
inductive Step : AppState → AppState → Prop
  | inputEdit (t : String) : Step s (setInputEvent t s)
  | upload (p : ImagePayload) : Step s (uploadEvent p s)
  | clearImg : Step s (clearImageEvent s)
  | paste (items : List ClipItem) : Step s (pasteEvent items s)
  | clearBtn : Step s (clearEvent s)
  | viewChange (v : ViewMode) : Step s (handleViewChange v s)
  | submit : Step s (submitForm s).state
  | resolveDiag (o : SvcOutcome) :
      s.diagnosisState.loading = true → Step s (resolveDiagnosis o s)
  | resolveMed (o : SvcOutcome) :
      s.medicationState.loading = true → Step s (resolveMedication o s)
  | camStart (o : Option StreamHandle) : Step s (startCameraEvent o s)
  | camStop : Step s (stopCamera s)
  | camCapture (ctxOk : Bool) (u : ImagePayload) :
      Step s (captureImageEvent ctxOk u s)
  | report (o : Option String) : Step s (handleViewReport s o).state
  | reportClose : Step s (closeReportModal s)
  | contactOpen : Step s (openContactModal s)
  | contactClose : Step s (closeContactModal s)
  | copyStart : Step s (copyEmailStart s)
  | copyEnd : Step s (copyEmailEnd s)
  | sampleStart : Step s (generateSampleStart s)
  | sampleEnd (o : Option String) :
      s.isGenerating = true → Step s (generateSampleEnd o s)

/-- States reachable from the freshly mounted component. -/
inductive Reachable : AppState → Prop
  | init : Reachable initialState
  | step {s t : AppState} : Reachable s → Step s t → Reachable t

/-- The part of the per-workflow invariant the code actually maintains:
entering `loading` clears the error (so a loading state never carries an
error message), and an error state never carries a result. -/
def WorkInv (w : WorkflowSt) : Prop :=
  (w.loading = true → w.error = none) ∧ (w.error.isSome → w.results = none)

theorem workInv_preserved {s t : AppState} (hst : Step s t)
    (h : WorkInv s.diagnosisState ∧ WorkInv s.medicationState) :
    WorkInv t.diagnosisState ∧ WorkInv t.medicationState := by
  cases hst with
  | inputEdit t' => unfold setInputEvent; split <;> exact h
  | upload p => unfold uploadEvent; split <;> exact h
  | clearImg => exact h
  | paste items => unfold pasteEvent; split <;> exact h
  | clearBtn =>
    unfold clearEvent handleClear; split
    · exact h
    · exact ⟨⟨fun hc => (nomatch hc), fun hc => (nomatch hc)⟩,
        ⟨fun hc => (nomatch hc), fun hc => (nomatch hc)⟩⟩
  | viewChange v =>
    unfold handleViewChange handleClear
    exact ⟨⟨fun hc => (nomatch hc), fun hc => (nomatch hc)⟩,
      ⟨fun hc => (nomatch hc), fun hc => (nomatch hc)⟩⟩
  | submit =>
    unfold submitForm
    split
    · exact h
    · cases hv : s.view <;>
        simp only [hv, handleAnalyzeDiagnosisStart,
          handleAnalyzeMedicationStart] <;> split <;>
        first
          | exact h
          | exact ⟨⟨fun _ => rfl, fun hc => (nomatch hc)⟩, h.2⟩
          | exact ⟨h.1, ⟨fun _ => rfl, fun hc => (nomatch hc)⟩⟩
  | resolveDiag o hload =>
    cases o with
    | ok d => exact ⟨⟨fun hc => (nomatch hc), fun hc => (nomatch hc)⟩, h.2⟩
    | fail m => exact ⟨⟨fun hc => (nomatch hc), fun _ => rfl⟩, h.2⟩
  | resolveMed o hload =>
    cases o with
    | ok d => exact ⟨h.1, ⟨fun hc => (nomatch hc), fun hc => (nomatch hc)⟩⟩
    | fail m => exact ⟨h.1, ⟨fun hc => (nomatch hc), fun _ => rfl⟩⟩
  | camStart o =>
    unfold startCameraEvent
    split
    · cases o <;> exact h
    · exact h
  | camStop => exact h
  | camCapture ctxOk u =>
    unfold captureImageEvent stopCamera; split <;> exact h
  | report o =>
    unfold handleViewReport
    split
    · exact h
    · split <;> exact h
  | reportClose => exact h
  | contactOpen => exact h
  | contactClose => exact h
  | copyStart => exact h
  | copyEnd => exact h
  | sampleStart => unfold generateSampleStart; split <;> exact h
  | sampleEnd o hg => exact h

theorem reachable_workInv {s : AppState} (hs : Reachable s) :
    WorkInv s.diagnosisState ∧ WorkInv s.medicationState := by
  induction hs with
  | init =>
    exact ⟨⟨fun hc => (nomatch hc), fun hc => (nomatch hc)⟩,
      ⟨fun hc => (nomatch hc), fun hc => (nomatch hc)⟩⟩
  | step _ hst ih => exact workInv_preserved hst ih

/-- Status facts that follow from `WorkInv` for a single workflow
instance. -/
theorem workInv_statusFacts {w : WorkflowSt} (h : WorkInv w) :
    (w.statusOf = WStatus.error ↔ w.error.isSome) ∧
      (w.statusOf = WStatus.success → w.results.isSome) ∧
      (w.statusOf = WStatus.idle → w.results = none) ∧
      (w.statusOf = WStatus.error → w.results = none) := by
  obtain ⟨res, load, err⟩ := w
  obtain ⟨h1, h2⟩ := h
  cases load with
  | true =>
    have he : err = none := h1 rfl
    subst he
    simp [WorkflowSt.statusOf]
  | false =>
    cases err with
    | none => cases res <;> simp [WorkflowSt.statusOf]
    | some m =>
      have hr : res = none := h2 rfl
      subst hr
      simp [WorkflowSt.statusOf]

/-- A state with symptom text entered: one keystroke event away from the
initial state. -/
def stateWithText : AppState := setInputEvent "fever and cough" initialState

/-- A state whose diagnosis request is in flight. -/
def stateDiagLoading : AppState := (submitForm stateWithText).state

/-- A state storing a successful diagnosis result. -/
def stateDiagSuccess : AppState :=
  resolveDiagnosis (SvcOutcome.ok 1) stateDiagLoading

/-- The state reached by resubmitting while a success is stored. -/
def stateResubmit : AppState := (submitForm stateDiagSuccess).state

/-- C1: for every draft whose trimmed text is empty and whose image is
absent, submitting is a no-op for both workflows: neither analyze handler
changes any state or invokes its AnalysisService entry point, and the
guarded form-submit event likewise does nothing. -/
theorem C1_empty_draft_noop (s : AppState)
    (ht : jsTrim s.input = "") (hi : s.selectedImage = none) :
    handleAnalyzeDiagnosisStart s = ⟨s, false, ""⟩ ∧
      handleAnalyzeMedicationStart s = ⟨s, false, ""⟩ ∧
      submitForm s = ⟨s, false, ""⟩ := by
  have hd : draftEmpty s = true := by simp [draftEmpty, ht, hi]
  refine ⟨?_, ?_, ?_⟩
  · simp [handleAnalyzeDiagnosisStart, hd]
  · simp [handleAnalyzeMedicationStart, hd]
  · simp [submitForm, submitButtonDisabled, hd]

/-- C1 witness: the initial state has an empty draft, and submitting there
does nothing. -/
theorem C1_empty_draft_noop_witness :
    jsTrim initialState.input = "" ∧ initialState.selectedImage = none ∧
      submitForm initialState = ⟨initialState, false, ""⟩ :=
  ⟨by decide, rfl, (C1_empty_draft_noop initialState (by decide) rfl).2.2⟩

/-- C2: while either workflow has a request in flight (its loading flag
set), the submit event is inert: the disabled submit button prevents any
second service invocation and the state is unchanged. -/
theorem C2_loading_guard (s : AppState)
    (h : s.diagnosisState.loading = true ∨
      s.medicationState.loading = true) :
    submitForm s = ⟨s, false, ""⟩ := by
  have hl : isLoading s = true := by
    rcases h with h | h <;> simp [isLoading, h]
  simp [submitForm, submitButtonDisabled, hl]

/-- C2 witness: submitting while the diagnosis request started from
`stateWithText` is still in flight changes nothing and invokes nothing. -/
theorem C2_loading_guard_witness :
    stateDiagLoading.diagnosisState.loading = true ∧
      submitForm stateDiagLoading = ⟨stateDiagLoading, false, ""⟩ :=
  ⟨by decide, C2_loading_guard stateDiagLoading (Or.inl (by decide))⟩

/-- C3 counterexample: resubmitting after a success yields a reachable
state whose diagnosis workflow is loading while still storing the prior
result (the handler spreads the previous state), refuting
result-present-iff-success. -/
theorem C3_counterexample :
    Reachable stateResubmit ∧
      stateResubmit.diagnosisState.statusOf = WStatus.loading ∧
      stateResubmit.diagnosisState.results = some 1 := by
  refine ⟨?_, by decide, by decide⟩
  exact Reachable.step
    (Reachable.step
      (Reachable.step
        (Reachable.step Reachable.init (Step.inputEdit "fever and cough"))
        Step.submit)
      (Step.resolveDiag (SvcOutcome.ok 1) (by decide)))
    Step.submit

/-- C3 (amended): at every reachable state, for each workflow, the error
message is present iff the status is error, a success state always
carries a result, and idle/error states carry none; but a prior result
may remain stored while the workflow is loading, so
result-present-iff-success does not hold in the loading state. -/
theorem C3_amended (s : AppState) (hs : Reachable s) :
    ((s.diagnosisState.statusOf = WStatus.error ↔
        s.diagnosisState.error.isSome) ∧
      (s.diagnosisState.statusOf = WStatus.success →
        s.diagnosisState.results.isSome) ∧
      (s.diagnosisState.statusOf = WStatus.idle →
        s.diagnosisState.results = none) ∧
      (s.diagnosisState.statusOf = WStatus.error →
        s.diagnosisState.results = none)) ∧
      ((s.medicationState.statusOf = WStatus.error ↔
        s.medicationState.error.isSome) ∧
      (s.medicationState.statusOf = WStatus.success →
        s.medicationState.results.isSome) ∧
      (s.medicationState.statusOf = WStatus.idle →
        s.medicationState.results = none) ∧
      (s.medicationState.statusOf = WStatus.error →
        s.medicationState.results = none)) :=
  ⟨workInv_statusFacts (reachable_workInv hs).1,
    workInv_statusFacts (reachable_workInv hs).2⟩

/-- C3 amended witness: the status facts instantiated at the initial
state. -/
theorem C3_amended_witness :
    (initialState.diagnosisState.statusOf = WStatus.error ↔
      initialState.diagnosisState.error.isSome) ∧
      (initialState.medicationState.statusOf = WStatus.error ↔
        initialState.medicationState.error.isSome) :=
  ⟨(C3_amended initialState Reachable.init).1.1,
    (C3_amended initialState Reachable.init).2.1⟩

/-- C4: switching the view, to any mode and from any prior state, empties
the draft, resets both workflows to idle with no result and no error
message, and empties the report artifact cache. -/
theorem C4_switch_resets (v : ViewMode) (s : AppState) :
    (handleViewChange v s).input = "" ∧
      (handleViewChange v s).selectedImage = none ∧
      (handleViewChange v s).diagnosisState = ⟨none, false, none⟩ ∧
      (handleViewChange v s).diagnosisState.statusOf = WStatus.idle ∧
      (handleViewChange v s).medicationState = ⟨none, false, none⟩ ∧
      (handleViewChange v s).medicationState.statusOf = WStatus.idle ∧
      (handleViewChange v s).reportHtml = "" :=
  ⟨rfl, rfl, rfl, rfl, rfl, rfl, rfl⟩

/-- C5 counterexample: with text entered and the diagnosis view already
active, switching to the currently active mode still performs the hard
reset, so the state does change: the claim's same-mode no-op fails. -/
theorem C5_counterexample :
    stateWithText.view = ViewMode.diagnosis ∧
      handleViewChange ViewMode.diagnosis stateWithText ≠ stateWithText := by
  refine ⟨rfl, ?_⟩
  decide

/-- C5 (amended): `handleViewChange` performs the hard reset
unconditionally, also when the target mode equals the current one;
nevertheless two immediately successive switches to the same mode equal a
single one, the second call being a no-op only because the first already
reset everything. -/
theorem C5_amended (v : ViewMode) (s : AppState) :
    handleViewChange v (handleViewChange v s) = handleViewChange v s ∧
      handleViewChange v s = handleClear { s with view := v } :=
  ⟨rfl, rfl⟩

/-- C6 counterexample: when `generateClinicalReport` resolves with the
empty string, the cache slot (`reportHtml`) is still empty afterwards, so
a second view-report call for the same stored result invokes the
generator again: two successive calls invoke it twice. -/
theorem C6_counterexample :
    (handleViewReport stateDiagSuccess (some "")).generateInvoked = true ∧
      (handleViewReport (handleViewReport stateDiagSuccess (some "")).state
          (some "")).generateInvoked = true ∧
      (handleViewReport stateDiagSuccess
          (some "")).state.diagnosisState.results =
        stateDiagSuccess.diagnosisState.results := by
  decide

/-- C6 (amended): two successive view-report calls invoke
`generateClinicalReport` at most once provided the HTML stored by the
first call is non-empty (the code marks the cache as filled by
`reportHtml` being non-empty, and the failure fallback is a fixed
non-empty fragment); a generator resolving with the empty string defeats
the memoization. -/
theorem C6_amended (s : AppState) (o1 o2 : Option String)
    (h : reportOutcomeHtml o1 ≠ "") :
    ¬((handleViewReport s o1).generateInvoked = true ∧
      (handleViewReport (handleViewReport s o1).state o2).generateInvoked
        = true) := by
  by_cases hA : s.diagnosisState.results.isNone
  · simp [handleViewReport, hA]
  · by_cases hB : s.reportHtml = ""
    · simp [handleViewReport, hA, hB, h]
    · simp [handleViewReport, hA, hB]

/-- C6 amended witness: applied to the concrete success state with a
non-empty generated report. -/
theorem C6_amended_witness :
    reportOutcomeHtml (some "<h1>r</h1>") ≠ "" ∧
      ¬((handleViewReport stateDiagSuccess
          (some "<h1>r</h1>")).generateInvoked = true ∧
        (handleViewReport
            (handleViewReport stateDiagSuccess (some "<h1>r</h1>")).state
            (some "<h1>r</h1>")).generateInvoked = true) :=
  ⟨by decide,
    C6_amended stateDiagSuccess (some "<h1>r</h1>") (some "<h1>r</h1>")
      (by decide)⟩

/-- A reachable state with the camera open in the medication view. -/
def stateCameraOpen : AppState :=
  startCameraEvent (some 7) (handleViewChange ViewMode.medication initialState)

/-- C7 counterexample: with the camera open, switching views performs the
hard reset but leaves the camera session untouched: the stream handle is
still held and the viewfinder still shown, so the claimed view-teardown
exit path releases nothing. -/
theorem C7_counterexample :
    Reachable stateCameraOpen ∧ stateCameraOpen.stream = some 7 ∧
      (handleViewChange ViewMode.diagnosis stateCameraOpen).stream =
        some 7 ∧
      (handleViewChange ViewMode.diagnosis stateCameraOpen).showCamera =
        true := by
  refine ⟨?_, by decide, by decide, by decide⟩
  exact Reachable.step
    (Reachable.step Reachable.init (Step.viewChange ViewMode.medication))
    (Step.camStart (some 7))

/-- C7 (amended): the device is released and the session closed on
explicit stop and on successful still-capture, and a failed start
acquires nothing; but switching views does not tear the camera session
down: the stream handle and viewfinder flag survive `handleViewChange`
unchanged. -/
theorem C7_amended (s : AppState) (u : ImagePayload) (v : ViewMode) :
    ((stopCamera s).stream = none ∧ (stopCamera s).showCamera = false) ∧
      (s.showCamera = true →
        (captureImageEvent true u s).stream = none ∧
          (captureImageEvent true u s).showCamera = false) ∧
      startCameraEvent none s = s ∧
      ((handleViewChange v s).stream = s.stream ∧
        (handleViewChange v s).showCamera = s.showCamera) := by
  refine ⟨⟨rfl, rfl⟩, ?_, ?_, rfl, rfl⟩
  · intro h
    simp [captureImageEvent, h, stopCamera]
  · unfold startCameraEvent
    split
    · rfl
    · rfl

/-- C7 amended witness: a successful capture from the concrete camera-open
state releases the device. -/
theorem C7_amended_witness :
    stateCameraOpen.showCamera = true ∧
      (captureImageEvent true "data:image/png;base64,x"
        stateCameraOpen).stream = none :=
  ⟨by decide,
    ((C7_amended stateCameraOpen "data:image/png;base64,x"
      ViewMode.diagnosis).2.1 (by decide)).1⟩

/-- A reachable state with two overlays visible at once. -/
def stateTwoOverlays : AppState := openContactModal stateCameraOpen

/-- C8 counterexample: opening the contact panel while the camera
viewfinder is open yields a reachable state with two overlays visible at
once: the overlay flags are independent booleans, not a single slot. -/
theorem C8_counterexample :
    Reachable stateTwoOverlays ∧ overlaysVisible stateTwoOverlays = 2 ∧
      stateTwoOverlays.showCamera = true ∧
      stateTwoOverlays.showContactModal = true := by
  refine ⟨?_, by decide, by decide, by decide⟩
  exact Reachable.step
    (Reachable.step
      (Reachable.step Reachable.init (Step.viewChange ViewMode.medication))
      (Step.camStart (some 7)))
    Step.contactOpen

/-- C8 (amended): each overlay-opening operation touches only its own
flag — the report modal, the contact modal and the camera each leave the
other two overlay flags unchanged — and no mutual exclusion is enforced,
so two overlays can be visible simultaneously. -/
theorem C8_amended (s : AppState) (o : Option String)
    (m : Option StreamHandle) :
    ((openContactModal s).showReportModal = s.showReportModal ∧
      (openContactModal s).showCamera = s.showCamera) ∧
      ((handleViewReport s o).state.showContactModal = s.showContactModal ∧
        (handleViewReport s o).state.showCamera = s.showCamera) ∧
      ((startCameraEvent m s).showReportModal = s.showReportModal ∧
        (startCameraEvent m s).showContactModal = s.showContactModal) := by
  refine ⟨⟨rfl, rfl⟩, ?_, ?_⟩
  · unfold handleViewReport
    split
    · exact ⟨rfl, rfl⟩
    · split
      · exact ⟨rfl, rfl⟩
      · exact ⟨rfl, rfl⟩
  · unfold startCameraEvent
    split
    · cases m
      · exact ⟨rfl, rfl⟩
      · exact ⟨rfl, rfl⟩
    · exact ⟨rfl, rfl⟩

/-- Specification-side restatement of the amended paste rule: find the
first image-typed item; with no such item the paste is unhandled and the
image unchanged; otherwise the paste is suppressed and that item's file,
when present, replaces the image. -/
def pasteSpecified (items : List ClipItem) (prev : Option ImagePayload) :
    PasteOutcome :=
  match items.find? (fun it => typeHasImage it.itemType) with
  | none => ⟨prev, false⟩
  | some it =>
    ⟨match it.itemFile with
      | some f => some f
      | none => prev, true⟩

/-- C9 counterexample: a paste whose only item is image-typed but yields
no file (`getAsFile()` returning null) suppresses the default action yet
stores nothing: the existing draft image survives instead of being
replaced by the pasted item. -/
theorem C9_counterexample :
    handlePaste [⟨"image/png", none⟩] (some "old") = ⟨some "old", true⟩ := by
  decide

/-- C9 (amended): the paste scan stops at the first image-typed item,
suppressing the default action exactly when one exists; the draft image
is replaced only when that item carries a file, and is left unchanged
otherwise or when no item is image-typed. -/
theorem C9_amended (items : List ClipItem) (prev : Option ImagePayload) :
    handlePaste items prev = pasteSpecified items prev := by
  induction items with
  | nil => rfl
  | cons it rest ih =>
    cases hh : typeHasImage it.itemType with
    | true => simp [handlePaste, pasteSpecified, List.find?, hh]
    | false => simp [handlePaste, pasteSpecified, List.find?, hh, ih]

/-- C10: a failing service call stores the failure message (or the
generic fallback when the failure carries none) and clears the stored
result to absent, for both workflows — so an error state never retains a
prior result. -/
theorem C10_failure_clears_result (s : AppState) (m : Option String) :
    (resolveDiagnosis (SvcOutcome.fail m) s).diagnosisState.results =
        none ∧
      (resolveDiagnosis (SvcOutcome.fail m) s).diagnosisState.error =
        some (orElseMsg m "An error occurred during diagnosis.") ∧
      (resolveMedication (SvcOutcome.fail m) s).medicationState.results =
        none ∧
      (resolveMedication (SvcOutcome.fail m) s).medicationState.error =
        some (orElseMsg m "An error occurred during medication analysis.") :=
  ⟨rfl, rfl, rfl, rfl⟩

end LVHealth
